import Mathlib

/-!
# scripts.js: CSV rows to map markers

A shallow embedding of `src/scripts.js`.  The script owns one Leaflet map,
wires a file input to a CSV parse, and `processCSVData` walks the parsed rows
and drops a marker for every row whose `lat` and `lng` pass the guard
`!isNaN(lat) && !isNaN(lng)`.

The JavaScript builtins the script calls (`parseFloat`, `isNaN`, the template
literal, `Array.prototype.forEach`) are embedded after ECMA-262.  The Leaflet
calls (`L.marker`, `addTo`, `bindPopup`, `openPopup`) are embedded as state
transformers on an explicit map state.  A call either returns, throws or does
not return; the script catches nothing, so the loop over the rows stops at
the first row whose Leaflet calls do not return normally.
-/

namespace Scripts

/-! ## JavaScript values -/

/-- A JavaScript Number.  `fin neg m e` stands for the binary64 value nearest
to the decimal `m * 10 ^ e`, negated when `neg` is set; `m` carries no
trailing zero and is `0` only with `e = 0`.  The three special values are
kept apart. -/
inductive JSNumber where
  | nan
  | posInf
  | negInf
  | fin (neg : Bool) (m : Nat) (e : Int)
  deriving DecidableEq

/-- The global `isNaN` applied to a Number. -/
def isNaN : JSNumber → Bool
  | .nan => true
  | _ => false

/-- The global `isFinite` applied to a Number. -/
def isFinite : JSNumber → Bool
  | .fin _ _ _ => true
  | _ => false

/-- Whether a Number is `Infinity` or `-Infinity`. -/
def isInfinite : JSNumber → Bool
  | .posInf => true
  | .negInf => true
  | _ => false

/-- A property read such as `row.lat`: `none` is `undefined` (the property is
absent), `some s` is the string stored under the key. -/
abbrev JSValue := Option String

/-- ECMA-262 `ToString` on a value that is `undefined` or a string. -/
def ToString : JSValue → String
  | none => "undefined"
  | some s => s

/-! ## parseFloat -/

/-- ECMA-262 `WhiteSpace` and `LineTerminator` code points, the ones that
`TrimString` removes. -/
def isWhiteSpace (c : Char) : Bool :=
  c = '\t' || c = '\n' || c.toNat = 0x0B || c.toNat = 0x0C || c = '\r' || c = ' '
    || c.toNat = 0xA0 || c.toNat = 0x1680
    || (0x2000 ≤ c.toNat && c.toNat ≤ 0x200A)
    || c.toNat = 0x2028 || c.toNat = 0x2029 || c.toNat = 0x202F
    || c.toNat = 0x205F || c.toNat = 0x3000 || c.toNat = 0xFEFF

/-- The value of one decimal digit. -/
def digitValue (c : Char) : Nat := c.toNat - '0'.toNat

/-- The value of a run of decimal digits, most significant first. -/
def digitsValue (ds : List Char) : Nat :=
  ds.foldl (fun n c => 10 * n + digitValue c) 0

/-- An optional leading `+` or `-`: whether the sign is negative, and what
follows the sign. -/
def scanSign : List Char → Bool × List Char
  | '-' :: cs => (true, cs)
  | '+' :: cs => (false, cs)
  | cs => (false, cs)

/-- The value of an `ExponentPart` (`e` or `E`, an optional sign, one or more
digits) at the head of the input; `0` when the input does not start with
one, in which case the literal ends before it. -/
def scanExponent : List Char → Int
  | [] => 0
  | c :: rest =>
    if c = 'e' ∨ c = 'E' then
      let digs := (scanSign rest).2.takeWhile Char.isDigit
      if digs = [] then 0
      else if (scanSign rest).1 then -(digitsValue digs : Int) else (digitsValue digs : Int)
    else 0

/-- The longest `StrUnsignedDecimalLiteral` at the head of the input.
`none`: the input starts with no such literal.  `some none`: it starts with
`Infinity`.  `some (some (m, e))`: it starts with a decimal literal whose
mathematical value is `m * 10 ^ e`. -/
def scanUnsigned (cs : List Char) : Option (Option (Nat × Int)) :=
  if "Infinity".toList.isPrefixOf cs then some none
  else
    let ip := cs.takeWhile Char.isDigit
    match cs.dropWhile Char.isDigit with
    | '.' :: r2 =>
      let fp := r2.takeWhile Char.isDigit
      if ip = [] ∧ fp = [] then none
      else some (some (digitsValue (ip ++ fp),
        scanExponent (r2.dropWhile Char.isDigit) - (fp.length : Int)))
    | r1 => if ip = [] then none else some (some (digitsValue ip, scanExponent r1))

/-- The least magnitude that rounds to an infinity: halfway between the
largest binary64 value `2 ^ 1024 - 2 ^ 971` and `2 ^ 1024`. -/
def overflowBound : Nat := (1 <<< 1024) - (1 <<< 970)

/-- Whether the decimal `m * 10 ^ e` reaches `overflowBound`. -/
def overflows (m : Nat) (e : Int) : Bool :=
  if 0 ≤ e then decide (overflowBound ≤ m * 10 ^ e.toNat)
  else decide (overflowBound * 10 ^ (-e).toNat ≤ m)

/-- Move factors of ten from the mantissa to the exponent, at most `fuel`
times. -/
def stripZeros : Nat → Nat → Int → Nat × Int
  | 0, m, e => (m, e)
  | fuel + 1, m, e =>
    if m ≠ 0 ∧ m % 10 = 0 then stripZeros fuel (m / 10) (e + 1) else (m, e)

/-- The decimal `m * 10 ^ e` without trailing zeros in the mantissa; zero is
`0 * 10 ^ 0`. -/
def normalize (m : Nat) (e : Int) : Nat × Int :=
  if m = 0 then (0, 0) else stripZeros m m e

/-- The Number for the decimal `m * 10 ^ e` with the given sign. -/
def toNumber (neg : Bool) (m : Nat) (e : Int) : JSNumber :=
  if overflows m e then (if neg then .negInf else .posInf)
  else .fin neg (normalize m e).1 (normalize m e).2

/-- The global `parseFloat`: convert the argument to a string, drop leading
white space, take the longest initial part that is a `StrDecimalLiteral`, and
return its value, or `NaN` when there is no such part. -/
def parseFloat (v : JSValue) : JSNumber :=
  let trimmed := (ToString v).toList.dropWhile isWhiteSpace
  match scanUnsigned (scanSign trimmed).2 with
  | none => .nan
  | some none => if (scanSign trimmed).1 then .negInf else .posInf
  | some (some (m, e)) => toNumber (scanSign trimmed).1 m e

/-! ## Leaflet

The library calls are embedded by their effect on the map.  Two ways of not
returning normally are embedded: the `LatLng` constructor throws on a `NaN`
coordinate, and opening a popup pans the map, upon which a tile layer throws
when the view has moved to an infinite longitude.  What panning to a finite
anchor does depends on pixel geometry and is left open. -/

/-- A geographical point, Leaflet's `LatLng`. -/
structure LatLng where
  lat : JSNumber
  lng : JSNumber
  deriving DecidableEq

/-- A marker layer: its position and the popup content bound to it, if any. -/
structure Marker where
  latlng : LatLng
  popup : Option String
  deriving DecidableEq

/-- The state of the page's one Leaflet map: the view, the tile layers, the
marker layers in the order they were added, and which marker's popup is open
(Leaflet keeps at most one popup open on a map). -/
structure MapState where
  center : LatLng
  zoom : Nat
  tileLayers : List String
  markers : List Marker
  openPopup : Option Nat
  deriving DecidableEq

/-- How a call ends: it returns, it throws, or it does not return. -/
inductive Completion where
  | normal
  | throws (msg : String)
  | hangs
  deriving DecidableEq

/-- The map a call leaves behind and how the call ended. -/
structure Result where
  map : MapState
  completion : Completion
  deriving DecidableEq

/-- What the embedding leaves to Leaflet: opening a popup pans the view so
that the popup is visible, by an amount that depends on pixel geometry, and
the tile layer may throw or loop while it follows the view.
`autoPan center zoom anchor` is the centre after the popup anchored at
`anchor` has opened, and how that call ended. -/
structure Leaflet where
  autoPan : LatLng → Nat → LatLng → LatLng × Completion

/-- A Leaflet on which every popup at a finite longitude opens without moving
the view. -/
def noPan : Leaflet := ⟨fun center _ _ => (center, .normal)⟩

/-- The call `L.marker([lat, lng])`: Leaflet's `LatLng` constructor throws on a
`NaN` coordinate; otherwise a marker with no popup. -/
def L.marker (lat lng : JSNumber) : Except String Marker :=
  if isNaN lat || isNaN lng then .error "Invalid LatLng object"
  else .ok { latlng := ⟨lat, lng⟩, popup := none }

/-- The call `marker.addTo(map)`: the marker becomes the last layer of the map;
returns its index, by which the later calls of the chain refer to it. -/
def addTo (mk : Marker) (m : MapState) : Nat × MapState :=
  (m.markers.length, { m with markers := m.markers ++ [mk] })

/-- The call `marker.bindPopup(content)` on the marker at index `i`. -/
def bindPopup (i : Nat) (content : String) (m : MapState) : MapState :=
  match m.markers[i]? with
  | some mk => { m with markers := m.markers.set i { mk with popup := some content } }
  | none => m

/-- The call `marker.openPopup()` on the marker at index `i`.  With a popup
bound, the map closes the popup that was open, registers this one as open
and pans to it.  At an infinite longitude the pan leaves no finite range of
tiles and a tile layer throws; otherwise the outcome of the pan is Leaflet's.
With no popup bound, nothing happens. -/
def openPopup (lf : Leaflet) (i : Nat) (m : MapState) : Result :=
  match m.markers[i]? with
  | some mk =>
    if mk.popup.isSome then
      if isInfinite mk.latlng.lng && !m.tileLayers.isEmpty then
        { map := { m with openPopup := some i }
          completion := .throws "Attempted to load an infinite number of tiles" }
      else
        { map := { m with
            openPopup := some i
            center := (lf.autoPan m.center m.zoom mk.latlng).1 }
          completion := (lf.autoPan m.center m.zoom mk.latlng).2 }
    else { map := m, completion := .normal }
  | none => { map := m, completion := .normal }

/-- Whether the popup of the marker at index `i` is open. -/
def popupOpen (m : MapState) (i : Nat) : Bool := m.openPopup = some i

/-! ## scripts.js -/

/-- The map of line 1 with the tile layer of lines 3 to 5:
`L.map('map').setView([20.5937, 78.9629], 6)`, no marker, no popup. -/
def map : MapState :=
  { center := ⟨.fin false 205937 (-4), .fin false 789629 (-4)⟩
    zoom := 6
    tileLayers := ["https://{s}.tile.openstreetmap.org/{z}/{x}/{y}.png"]
    markers := []
    openPopup := none }

/-- One element of `results.data`: an object from header names to the raw
text of the cells. -/
structure Record where
  fields : List (String × String)
  deriving DecidableEq

/-- The property read `row.key`. -/
def Record.get (row : Record) (key : String) : JSValue :=
  row.fields.lookup key

/-- The arrow function that `processCSVData` passes to `forEach`. -/
def rowCallback (lf : Leaflet) (row : Record) (m : MapState) : Result :=
  let lat := parseFloat (row.get "lat")
  let lng := parseFloat (row.get "lng")
  if !isNaN lat && !isNaN lng then
    match L.marker lat lng with
    | .error e => { map := m, completion := .throws e }
    | .ok mk =>
      let added := addTo mk m
      openPopup lf added.1
        (bindPopup added.1 ("<b>Timestamp:</b> " ++ ToString (row.get "Timestamp")) added.2)
  else { map := m, completion := .normal }

/-- `Array.prototype.forEach` with a callback that acts on the map: the
elements in order, stopping at the first call that does not return
normally. -/
def forEach (f : Record → MapState → Result) : List Record → MapState → Result
  | [], m => { map := m, completion := .normal }
  | row :: rest, m =>
    match (f row m).completion with
    | .normal => forEach f rest (f row m).map
    | _ => f row m

/-- The function `processCSVData(data)`. -/
def processCSVData (lf : Leaflet) (data : List Record) (m : MapState) : Result :=
  forEach (rowCallback lf) data m

/-- A selected file: its text. -/
structure File where
  text : String
  deriving DecidableEq

/-- The change event of the file input: `event.target.files`. -/
structure Event where
  files : List File

/-- The options object that `handleFileSelect` passes to `Papa.parse`, the
`complete` callback apart. -/
structure ParseConfig where
  header : Bool
  skipEmptyLines : Bool
  deriving DecidableEq

/-- What a call of `handleFileSelect` has done: the `Papa.parse` call it made,
if any, the map once the `complete` callback has run, and how that ended. -/
structure Outcome where
  parseCall : Option (File × ParseConfig)
  map : MapState
  completion : Completion
  deriving DecidableEq

/-- The function `handleFileSelect(event)`.  `papa file config` is the
`results.data` that the library `Papa.parse` delivers to `complete`; the
callback, which the library runs once the file is read, is run on the map
at hand. -/
def handleFileSelect (lf : Leaflet) (papa : File → ParseConfig → List Record)
    (event : Event) (m : MapState) : Outcome :=
  match event.files[0]? with
  | none => { parseCall := none, map := m, completion := .normal }
  | some file =>
    let config : ParseConfig := { header := true, skipEmptyLines := true }
    { parseCall := some (file, config)
      map := (processCSVData lf (papa file config) m).map
      completion := (processCSVData lf (papa file config) m).completion }

/-! ## Derived notions used in the statements -/

/-- The guard of the callback: neither coordinate parses to `NaN`. -/
def parseable (row : Record) : Bool :=
  !isNaN (parseFloat (row.get "lat")) && !isNaN (parseFloat (row.get "lng"))

/-- The coordinate parse of a record as the code does it: its position when
the guard passes, `Infinity` and `-Infinity` included. -/
def parseCoords (row : Record) : Option LatLng :=
  if parseable row then some ⟨parseFloat (row.get "lat"), parseFloat (row.get "lng")⟩
  else none

/-- After the spec's words "parseable as finite floats": the position of a
record when both coordinates parse to finite numbers. -/
def finiteCoords (row : Record) : Option LatLng :=
  if isFinite (parseFloat (row.get "lat")) && isFinite (parseFloat (row.get "lng")) then
    some ⟨parseFloat (row.get "lat"), parseFloat (row.get "lng")⟩
  else none

/-- The marker that a record with parseable coordinates leaves on the map. -/
def markerOf (row : Record) : Marker :=
  { latlng := ⟨parseFloat (row.get "lat"), parseFloat (row.get "lng")⟩
    popup := some ("<b>Timestamp:</b> " ++ ToString (row.get "Timestamp")) }

/-- The map with the marker of `row` added and its popup registered as open. -/
def opened (row : Record) (m : MapState) : MapState :=
  { m with
    markers := m.markers ++ [markerOf row]
    openPopup := some m.markers.length }

/-- What the Leaflet chain of the callback does for `row`. -/
def placed (lf : Leaflet) (row : Record) (m : MapState) : Result :=
  if isInfinite (parseFloat (row.get "lng")) && !m.tileLayers.isEmpty then
    { map := opened row m
      completion := .throws "Attempted to load an infinite number of tiles" }
  else
    { map := { opened row m with
        center := (lf.autoPan m.center m.zoom (markerOf row).latlng).1 }
      completion := (lf.autoPan m.center m.zoom (markerOf row).latlng).2 }

/-- What the callback does for `row`. -/
def step (lf : Leaflet) (row : Record) (m : MapState) : Result :=
  if parseable row then placed lf row m else { map := m, completion := .normal }

/-- Whether the input is, in whole, an `ExponentPart`. -/
def isExponentText : List Char → Bool
  | [] => false
  | c :: rest =>
    (c = 'e' || c = 'E') && !(scanSign rest).2.isEmpty && (scanSign rest).2.all Char.isDigit

/-- After the spec's word "non-numeric": a text is numeric when the whole of
it, white space at either end apart, is one decimal number: an optional
sign, digits with an optional fraction part or a fraction part alone, and an
optional exponent. -/
def isNumericText (s : String) : Bool :=
  let cs := ((s.toList.dropWhile isWhiteSpace).reverse.dropWhile isWhiteSpace).reverse
  let body := (scanSign cs).2
  let ip := body.takeWhile Char.isDigit
  let r1 := body.dropWhile Char.isDigit
  let fp := match r1 with
    | '.' :: r => r.takeWhile Char.isDigit
    | _ => []
  let r2 := match r1 with
    | '.' :: r => r.dropWhile Char.isDigit
    | _ => r1
  (!ip.isEmpty || !fp.isEmpty) && (r2.isEmpty || isExponentText r2)

/-- Whether a text begins with a number as `parseFloat` reads one: after
leading white space and an optional sign comes `Infinity`, a digit, or a dot
and a digit. -/
def beginsWithNumber (s : String) : Bool :=
  let body := (scanSign (s.toList.dropWhile isWhiteSpace)).2
  "Infinity".toList.isPrefixOf body ||
    match body with
    | [] => false
    | c :: rest =>
      c.isDigit || (c = '.' && match rest with
        | [] => false
        | d :: _ => d.isDigit)

/-- A field from which no number can be read: it is absent, or its text does
not begin with a number; the empty text and white space alone are of the
second kind. -/
def unreadable : JSValue → Bool
  | none => true
  | some s => !beginsWithNumber s

/-- Two records carry the same `lat`, `lng` and `Timestamp`. -/
def agree (r s : Record) : Prop :=
  r.get "lat" = s.get "lat" ∧ r.get "lng" = s.get "lng" ∧
    r.get "Timestamp" = s.get "Timestamp"

/-! ## The callback and the loop -/

theorem getElem?_snoc {α : Type} (xs : List α) (x : α) :
    (xs ++ [x])[xs.length]? = some x := by
  simp

theorem set_snoc {α : Type} (xs : List α) (x y : α) :
    (xs ++ [x]).set xs.length y = xs ++ [y] := by
  induction xs with
  | nil => rfl
  | cons a t ih => simp [ih]

theorem parseable_iff (row : Record) :
    parseable row = true ↔
      isNaN (parseFloat (row.get "lat")) = false ∧
        isNaN (parseFloat (row.get "lng")) = false := by
  simp [parseable]

theorem rowCallback_eq (lf : Leaflet) (row : Record) (m : MapState) :
    rowCallback lf row m = step lf row m := by
  by_cases h : parseable row = true
  · have h2 := (parseable_iff row).1 h
    simp only [rowCallback, L.marker, addTo, bindPopup, openPopup, h2.1, h2.2, h,
      getElem?_snoc, set_snoc, step, placed, opened, markerOf]
    simp
  · have h1 : parseable row = false := by simpa using h
    have h3 : (!isNaN (parseFloat (row.get "lat")) && !isNaN (parseFloat (row.get "lng")))
        = false := h1
    simp [rowCallback, h3, h1, step]

theorem result_eta (r : Result) (h : r.completion = .normal) :
    ({ map := r.map, completion := .normal } : Result) = r := by
  cases r
  simp_all

theorem step_of_not_parseable (lf : Leaflet) (row : Record) (m : MapState)
    (h : parseable row = false) : step lf row m = { map := m, completion := .normal } := by
  simp [step, h]

theorem step_markers (lf : Leaflet) (row : Record) (m : MapState) :
    (step lf row m).map.markers =
      m.markers ++ (if parseable row then [markerOf row] else []) := by
  unfold step placed
  by_cases h : parseable row = true
  · simp only [h, if_true]
    split <;> simp [opened]
  · simp [h]

theorem step_openPopup (lf : Leaflet) (row : Record) (m : MapState) :
    (step lf row m).map.openPopup =
      if parseable row then some m.markers.length else m.openPopup := by
  unfold step placed
  by_cases h : parseable row = true
  · simp only [h, if_true]
    split <;> simp [opened]
  · simp [h]

theorem processCSVData_nil (lf : Leaflet) (m : MapState) :
    processCSVData lf [] m = { map := m, completion := .normal } := rfl

theorem processCSVData_cons (lf : Leaflet) (row : Record) (rest : List Record)
    (m : MapState) :
    processCSVData lf (row :: rest) m =
      if (step lf row m).completion = .normal then processCSVData lf rest (step lf row m).map
      else step lf row m := by
  simp only [processCSVData, forEach, rowCallback_eq]
  split
  · next h => simp [h]
  · next h =>
    have : ¬ (step lf row m).completion = .normal := fun hc => h hc
    simp [this]

theorem processCSVData_append (lf : Leaflet) (a b : List Record) (m : MapState) :
    processCSVData lf (a ++ b) m =
      if (processCSVData lf a m).completion = .normal then
        processCSVData lf b (processCSVData lf a m).map
      else processCSVData lf a m := by
  induction a generalizing m with
  | nil => simp [processCSVData_nil]
  | cons row rest ih =>
    rw [List.cons_append, processCSVData_cons, processCSVData_cons]
    by_cases h : (step lf row m).completion = .normal
    · simp only [h, if_true]
      exact ih _
    · simp [h]

theorem processCSVData_single (lf : Leaflet) (row : Record) (m : MapState) :
    processCSVData lf [row] m = step lf row m := by
  rw [processCSVData_cons, processCSVData_nil]
  by_cases h : (step lf row m).completion = .normal
  · simp only [h, if_true]
    exact result_eta _ h
  · simp [h]

theorem processCSVData_snoc (lf : Leaflet) (pre : List Record) (row : Record)
    (m : MapState) :
    processCSVData lf (pre ++ [row]) m =
      if (processCSVData lf pre m).completion = .normal then
        step lf row (processCSVData lf pre m).map
      else processCSVData lf pre m := by
  rw [processCSVData_append, processCSVData_single]

theorem markers_of_normal (lf : Leaflet) (data : List Record) (m : MapState)
    (h : (processCSVData lf data m).completion = .normal) :
    (processCSVData lf data m).map.markers =
        m.markers ++ (data.filter parseable).map markerOf ∧
      (processCSVData lf data m).map.openPopup =
        if (data.filter parseable).length = 0 then m.openPopup
        else some (m.markers.length + (data.filter parseable).length - 1) := by
  induction data generalizing m with
  | nil => simp [processCSVData_nil]
  | cons row rest ih =>
    rw [processCSVData_cons] at h ⊢
    by_cases hs : (step lf row m).completion = .normal
    · simp only [hs, if_true] at h ⊢
      obtain ⟨h1, h2⟩ := ih _ h
      rw [h1, h2, step_markers, step_openPopup]
      by_cases hp : parseable row = true
      · simp only [hp, if_true, List.filter_cons_of_pos, List.map_cons, List.length_cons,
          List.length_append, List.length_nil]
        constructor
        · simp
        · split
          · next h0 => simp [h0]
          · next h0 =>
            simp only [Nat.add_one_ne_zero, if_false]
            congr 1
            omega
      · simp [hp]
    · simp only [hs, if_false] at h

theorem markers_reached (lf : Leaflet) (data : List Record) (m : MapState) :
    ∃ n, n ≤ data.length ∧
      (processCSVData lf data m).map.markers =
        m.markers ++ ((data.take n).filter parseable).map markerOf ∧
      ((processCSVData lf data m).completion = .normal → n = data.length) := by
  induction data generalizing m with
  | nil => exact ⟨0, Nat.le_refl _, by simp [processCSVData_nil], fun _ => rfl⟩
  | cons row rest ih =>
    rw [processCSVData_cons]
    by_cases hs : (step lf row m).completion = .normal
    · simp only [hs, if_true]
      obtain ⟨n, hn, h1, h2⟩ := ih (step lf row m).map
      refine ⟨n + 1, by simpa using hn, ?_, fun hc => by simp [h2 hc]⟩
      rw [h1, step_markers]
      by_cases hp : parseable row = true
      · simp [hp]
      · simp [hp]
    · simp only [hs, if_false]
      refine ⟨1, by simp, ?_, fun hc => hc.elim⟩
      rw [step_markers]
      simp only [List.take_succ_cons, List.take_zero]
      by_cases hp : parseable row = true
      · simp [hp]
      · simp [hp]

theorem latlng_of_markers (data : List Record) :
    ((data.filter parseable).map markerOf).map (fun mk => mk.latlng) =
      data.filterMap parseCoords := by
  induction data with
  | nil => rfl
  | cons row rest ih =>
    by_cases h : parseable row = true
    · simp [List.filterMap_cons, parseCoords, h, markerOf, ← ih]
    · simp [List.filterMap_cons, parseCoords, h, ← ih]

theorem agree_step (lf : Leaflet) {r s : Record} (h : agree r s) (m : MapState) :
    step lf r m = step lf s m := by
  simp [step, placed, opened, parseable, markerOf, h.1, h.2.1, h.2.2]

theorem handleFileSelect_file (lf : Leaflet) (papa : File → ParseConfig → List Record)
    (file : File) (rest : List File) (m : MapState) :
    handleFileSelect lf papa ⟨file :: rest⟩ m =
      { parseCall := some (file, { header := true, skipEmptyLines := true })
        map := (processCSVData lf (papa file { header := true, skipEmptyLines := true }) m).map
        completion :=
          (processCSVData lf (papa file { header := true, skipEmptyLines := true }) m).completion } := by
  simp [handleFileSelect]

/-! ## When parseFloat gives NaN -/

theorem toNumber_ne_nan (neg : Bool) (m : Nat) (e : Int) : isNaN (toNumber neg m e) = false := by
  unfold toNumber
  split
  · split <;> rfl
  · rfl

theorem scanUnsigned_eq_none (body : List Char) :
    scanUnsigned body = none ↔
      ("Infinity".toList.isPrefixOf body ||
        match body with
        | [] => false
        | c :: rest =>
          c.isDigit || (c = '.' && match rest with
            | [] => false
            | d :: _ => d.isDigit)) = false := by
  unfold scanUnsigned
  by_cases hinf : "Infinity".toList.isPrefixOf body = true
  · simp only [hinf, if_true, Bool.true_or]
    simp
  · simp only [hinf, Bool.false_eq_true, if_false, Bool.false_or]
    cases body with
    | nil => simp
    | cons c rest =>
      by_cases hc : c.isDigit = true
      · simp only [hc, List.takeWhile_cons_of_pos, List.dropWhile_cons_of_pos, Bool.true_or]
        split <;> simp
      · have hc2 : c.isDigit = false := by simpa using hc
        simp only [hc2, List.takeWhile, List.dropWhile, Bool.false_or]
        by_cases hdot : c = '.'
        · subst hdot
          cases rest with
          | nil => simp
          | cons d r =>
            by_cases hd : d.isDigit = true
            · simp [hd]
            · have hd2 : d.isDigit = false := by simpa using hd
              simp [hd2, List.takeWhile]
        · simp [hdot]

theorem parseFloat_nan_iff (s : String) :
    isNaN (parseFloat (some s)) = true ↔ beginsWithNumber s = false := by
  unfold parseFloat beginsWithNumber
  simp only [ToString]
  rw [← scanUnsigned_eq_none]
  generalize scanUnsigned (scanSign (List.dropWhile isWhiteSpace s.toList)).2 = r
  match r with
  | none => simp [isNaN]
  | some none =>
    simp only [reduceCtorEq, iff_false]
    split <;> simp [isNaN]
  | some (some (m, e)) => simp [toNumber_ne_nan]
theorem unreadable_iff (v : JSValue) :
    unreadable v = true ↔ isNaN (parseFloat v) = true := by
  cases v with
  | none => decide
  | some s => simp [unreadable, parseFloat_nan_iff]

/-! ## Which records get a marker -/

/-- C1, as the code has it: for a record that the loop reaches, the callback
adds a marker exactly when neither `parseFloat(row.lat)` nor
`parseFloat(row.lng)` is `NaN`; the marker then sits at the parsed position,
and otherwise the record changes nothing and raises nothing.  A record is
not reached, and changes nothing, when the Leaflet calls for an earlier
record did not return normally. -/
theorem marker_iff_not_nan (lf : Leaflet) (pre : List Record) (row : Record)
    (m : MapState) :
    ((processCSVData lf pre m).completion = .normal →
      ((processCSVData lf (pre ++ [row]) m).map.markers.length =
          (processCSVData lf pre m).map.markers.length + 1 ↔
        (isNaN (parseFloat (row.get "lat")) = false ∧
          isNaN (parseFloat (row.get "lng")) = false)) ∧
      ((isNaN (parseFloat (row.get "lat")) = false ∧
          isNaN (parseFloat (row.get "lng")) = false) →
        (processCSVData lf (pre ++ [row]) m).map.markers =
          (processCSVData lf pre m).map.markers ++
            [{ latlng := ⟨parseFloat (row.get "lat"), parseFloat (row.get "lng")⟩
               popup := some ("<b>Timestamp:</b> " ++ ToString (row.get "Timestamp")) }]) ∧
      ((isNaN (parseFloat (row.get "lat")) = true ∨
          isNaN (parseFloat (row.get "lng")) = true) →
        processCSVData lf (pre ++ [row]) m = processCSVData lf pre m)) ∧
    ((processCSVData lf pre m).completion ≠ .normal →
      processCSVData lf (pre ++ [row]) m = processCSVData lf pre m) := by
  constructor
  · intro hpre
    rw [processCSVData_snoc]
    simp only [hpre, if_true]
    refine ⟨?_, ?_, ?_⟩
    · rw [← parseable_iff, step_markers]
      by_cases h : parseable row = true
      · simp [h]
      · simp [h]
    · intro h
      rw [← parseable_iff] at h
      rw [step_markers]
      simp [h, markerOf]
    · intro h
      have h1 : parseable row = false := by
        rcases h with h | h <;> simp [parseable, h]
      rw [step_of_not_parseable lf row _ h1]
      exact result_eta _ hpre
  · intro hpre
    rw [processCSVData_snoc]
    simp [hpre]

/-- C1, the stated form fails in both directions.  `parseFloat("Infinity")` is
not finite, and the record still gets a marker, at latitude `Infinity`.  And
a record with two finite coordinates gets no marker when the row before it
has longitude `-Infinity`: the popup of that row makes Leaflet throw and the
loop ends there. -/
theorem infinity_gets_marker :
    isFinite (parseFloat (some "Infinity")) = false ∧
    (processCSVData noPan
        [⟨[("lat", "Infinity"), ("lng", "72.8777"), ("Timestamp", "t")]⟩] map).map.markers =
      [{ latlng := ⟨.posInf, .fin false 728777 (-4)⟩
         popup := some "<b>Timestamp:</b> t" }] ∧
    isFinite (parseFloat (some "21")) = true ∧ isFinite (parseFloat (some "79")) = true ∧
    (processCSVData noPan
        [⟨[("lat", "20"), ("lng", "-Infinity"), ("Timestamp", "a")]⟩,
         ⟨[("lat", "21"), ("lng", "79"), ("Timestamp", "b")]⟩] map).map.markers =
      [{ latlng := ⟨.fin false 2 1, .negInf⟩
         popup := some "<b>Timestamp:</b> a" }] ∧
    (processCSVData noPan
        [⟨[("lat", "20"), ("lng", "-Infinity"), ("Timestamp", "a")]⟩,
         ⟨[("lat", "21"), ("lng", "79"), ("Timestamp", "b")]⟩] map).completion =
      .throws "Attempted to load an infinite number of tiles" := by
  decide

/-- C1 at concrete records: after one row has been processed, a second row
with a fraction and a sign adds the second marker, and a third row with an
empty `lat` changes nothing. -/
theorem marker_iff_not_nan_witness :
    (processCSVData noPan
        ([⟨[("lat", "1"), ("lng", "2"), ("Timestamp", "a")]⟩] ++
          [⟨[("lat", "3.5"), ("lng", "-4"), ("Timestamp", "b")]⟩]) map).map.markers =
      (processCSVData noPan
          [⟨[("lat", "1"), ("lng", "2"), ("Timestamp", "a")]⟩] map).map.markers ++
        [{ latlng := ⟨.fin false 35 (-1), .fin true 4 0⟩
           popup := some "<b>Timestamp:</b> b" }] ∧
    processCSVData noPan
        ([⟨[("lat", "1"), ("lng", "2"), ("Timestamp", "a")]⟩] ++
          [⟨[("lat", ""), ("lng", "-4"), ("Timestamp", "c")]⟩]) map =
      processCSVData noPan [⟨[("lat", "1"), ("lng", "2"), ("Timestamp", "a")]⟩] map :=
  ⟨((marker_iff_not_nan noPan [⟨[("lat", "1"), ("lng", "2"), ("Timestamp", "a")]⟩]
      ⟨[("lat", "3.5"), ("lng", "-4"), ("Timestamp", "b")]⟩ map).1 (by decide)).2.1
      (by decide),
   ((marker_iff_not_nan noPan [⟨[("lat", "1"), ("lng", "2"), ("Timestamp", "a")]⟩]
      ⟨[("lat", ""), ("lng", "-4"), ("Timestamp", "c")]⟩ map).1 (by decide)).2.2
      (by decide)⟩

/-- C2, as the code has it: when `processCSVData` returns normally, the
positions of the markers on the map are the positions that were there,
followed by the coordinate parse of the records in row order, the records
with a `NaN` coordinate left out.  In every case they are that sequence for
the first `n` rows, `n` being all rows unless Leaflet stopped the loop. -/
theorem positions_eq_filterMap (lf : Leaflet) (data : List Record) (m : MapState) :
    ((processCSVData lf data m).completion = .normal →
      (processCSVData lf data m).map.markers.map (fun mk => mk.latlng) =
        m.markers.map (fun mk => mk.latlng) ++ data.filterMap parseCoords) ∧
    ∃ n, n ≤ data.length ∧
      (processCSVData lf data m).map.markers.map (fun mk => mk.latlng) =
        m.markers.map (fun mk => mk.latlng) ++ (data.take n).filterMap parseCoords ∧
      ((processCSVData lf data m).completion = .normal → n = data.length) := by
  constructor
  · intro h
    rw [(markers_of_normal lf data m h).1, List.map_append, latlng_of_markers]
  · obtain ⟨n, hn, h1, h2⟩ := markers_reached lf data m
    exact ⟨n, hn, by rw [h1, List.map_append, latlng_of_markers], h2⟩

/-- C2, the stated form fails: the first of two rows has longitude `Infinity`,
its popup makes Leaflet throw, and the second row, whose coordinates are
finite, is never reached.  The positions on the map are neither the
filter-map through the code's parse nor the one through a parse to finite
numbers.  The latter is not what the code computes on a normal return
either: a row with latitude `Infinity` gets its position on the map. -/
theorem abort_drops_later_rows :
    (processCSVData noPan
        [⟨[("lat", "Infinity"), ("lng", "1"), ("Timestamp", "a")]⟩] map).completion =
      .normal ∧
    (processCSVData noPan
        [⟨[("lat", "Infinity"), ("lng", "1"), ("Timestamp", "a")]⟩] map).map.markers.map
        (fun mk => mk.latlng) = [⟨.posInf, .fin false 1 0⟩] ∧
    [(⟨[("lat", "Infinity"), ("lng", "1"), ("Timestamp", "a")]⟩ : Record)].filterMap
      finiteCoords = [] ∧
    (processCSVData noPan
        [⟨[("lat", "20"), ("lng", "Infinity"), ("Timestamp", "a")]⟩,
         ⟨[("lat", "21"), ("lng", "79"), ("Timestamp", "b")]⟩] map).map.markers.map
        (fun mk => mk.latlng) = [⟨.fin false 2 1, .posInf⟩] ∧
    [(⟨[("lat", "20"), ("lng", "Infinity"), ("Timestamp", "a")]⟩ : Record),
      ⟨[("lat", "21"), ("lng", "79"), ("Timestamp", "b")]⟩].filterMap parseCoords =
      [⟨.fin false 2 1, .posInf⟩, ⟨.fin false 21 0, .fin false 79 0⟩] ∧
    [(⟨[("lat", "20"), ("lng", "Infinity"), ("Timestamp", "a")]⟩ : Record),
      ⟨[("lat", "21"), ("lng", "79"), ("Timestamp", "b")]⟩].filterMap finiteCoords =
      [⟨.fin false 21 0, .fin false 79 0⟩] ∧
    (processCSVData noPan
        [⟨[("lat", "20"), ("lng", "Infinity"), ("Timestamp", "a")]⟩,
         ⟨[("lat", "21"), ("lng", "79"), ("Timestamp", "b")]⟩] map).completion =
      .throws "Attempted to load an infinite number of tiles" := by
  decide

/-- C2 at four rows with signs, a fraction without integer part, an exponent,
leading white space, trailing text and an infinite latitude: three positions,
in row order. -/
theorem positions_eq_filterMap_witness :
    (processCSVData noPan
        [⟨[("lat", "-33.8688"), ("lng", "+151.2093"), ("Timestamp", "a")]⟩,
         ⟨[("lat", "abc"), ("lng", "1"), ("Timestamp", "b")]⟩,
         ⟨[("lat", " 1.5e2"), ("lng", ".5"), ("Timestamp", "c")]⟩,
         ⟨[("lat", "Infinity"), ("lng", "-0.25E-1x"), ("Timestamp", "d")]⟩]
        map).map.markers.map (fun mk => mk.latlng) =
      [⟨.fin true 338688 (-4), .fin false 1512093 (-4)⟩,
       ⟨.fin false 15 1, .fin false 5 (-1)⟩,
       ⟨.posInf, .fin true 25 (-3)⟩] :=
  (positions_eq_filterMap noPan
    [⟨[("lat", "-33.8688"), ("lng", "+151.2093"), ("Timestamp", "a")]⟩,
     ⟨[("lat", "abc"), ("lng", "1"), ("Timestamp", "b")]⟩,
     ⟨[("lat", " 1.5e2"), ("lng", ".5"), ("Timestamp", "c")]⟩,
     ⟨[("lat", "Infinity"), ("lng", "-0.25E-1x"), ("Timestamp", "d")]⟩] map).1 (by decide)

/-- C3, as the code has it: a record whose `lat` or `lng` is absent, or is a
text that does not begin (after leading white space) with a number, adds no
marker and raises nothing: processed alone it returns the map it was given,
and appended to any rows it leaves their result as it is.  The empty text is
such a text, and the one record with `abc` and `def` leaves the initial map
as it is. -/
theorem unreadable_gets_no_marker (lf : Leaflet) :
    (∀ (pre : List Record) (row : Record) (m : MapState),
      (unreadable (row.get "lat") = true ∨ unreadable (row.get "lng") = true) →
      processCSVData lf [row] m = { map := m, completion := .normal } ∧
        processCSVData lf (pre ++ [row]) m = processCSVData lf pre m) ∧
    unreadable none = true ∧ unreadable (some "") = true ∧
    processCSVData lf [⟨[("lat", "abc"), ("lng", "def"), ("Timestamp", "ts1")]⟩] map =
      { map := map, completion := .normal } := by
  refine ⟨?_, rfl, by decide, ?_⟩
  · intro pre row m h
    have h1 : parseable row = false := by
      rcases h with h | h
      · simp [parseable, (unreadable_iff _).1 h]
      · simp [parseable, (unreadable_iff _).1 h]
    refine ⟨by rw [processCSVData_single, step_of_not_parseable lf row m h1], ?_⟩
    rw [processCSVData_snoc]
    by_cases hpre : (processCSVData lf pre m).completion = .normal
    · simp only [hpre, if_true]
      rw [step_of_not_parseable lf row _ h1]
      exact result_eta _ hpre
    · simp [hpre]
  · rw [processCSVData_single, step_of_not_parseable]
    decide

/-- C3 at concrete records: after a good row, a row with an empty `lat` and no
`lng` column leaves the result of the good row as it is, one marker at
(1, -2). -/
theorem unreadable_gets_no_marker_witness :
    processCSVData noPan
        ([⟨[("lat", "1"), ("lng", "-2"), ("Timestamp", "a")]⟩] ++
          [⟨[("lat", ""), ("Timestamp", "b")]⟩]) map =
      processCSVData noPan [⟨[("lat", "1"), ("lng", "-2"), ("Timestamp", "a")]⟩] map ∧
    (processCSVData noPan
      [⟨[("lat", "1"), ("lng", "-2"), ("Timestamp", "a")]⟩] map).map.markers =
      [{ latlng := ⟨.fin false 1 0, .fin true 2 0⟩, popup := some "<b>Timestamp:</b> a" }] :=
  ⟨((unreadable_gets_no_marker noPan).1
    [⟨[("lat", "1"), ("lng", "-2"), ("Timestamp", "a")]⟩]
    ⟨[("lat", ""), ("Timestamp", "b")]⟩ map (by decide)).2, by decide⟩

/-- C3, the stated form fails: `12abc` is not numeric text, yet `parseFloat`
reads it as 12 and the record gets a marker at (12, 5). -/
theorem numeric_start_gets_marker :
    isNumericText "12abc" = false ∧
      processCSVData noPan
          [⟨[("lat", "12abc"), ("lng", "5"), ("Timestamp", "ts1")]⟩] map =
        { map := { map with
            markers := [{ latlng := ⟨.fin false 12 0, .fin false 5 0⟩
                          popup := some "<b>Timestamp:</b> ts1" }]
            openPopup := some 0 }
          completion := .normal } := by
  decide

/-- C4, as the code has it: when `processCSVData` returns normally, with `N`
the number of records neither of whose coordinates parses to `NaN`, it has
added exactly `N` markers, one per such record in row order; when `N > 0`
the one open popup is that of the last marker added, which is the marker of
the last such record. -/
theorem count_and_last_popup (lf : Leaflet) (data : List Record) (m : MapState)
    (h : (processCSVData lf data m).completion = .normal) :
    (processCSVData lf data m).map.markers =
        m.markers ++ (data.filter parseable).map markerOf ∧
    (processCSVData lf data m).map.markers.length =
        m.markers.length + (data.filter parseable).length ∧
    (0 < (data.filter parseable).length →
      (∀ i, popupOpen (processCSVData lf data m).map i = true ↔
          i = (processCSVData lf data m).map.markers.length - 1) ∧
      (processCSVData lf data m).map.markers.getLast? =
        (data.filter parseable).getLast?.map markerOf) := by
  obtain ⟨h1, h2⟩ := markers_of_normal lf data m h
  refine ⟨h1, by simp [h1], ?_⟩
  intro hN
  constructor
  · intro i
    have hne : ¬ (data.filter parseable).length = 0 := by omega
    simp only [popupOpen, h1, h2, hne, if_false, List.length_append,
      List.length_map, decide_eq_true_eq, Option.some.injEq]
    exact eq_comm
  · have hne : (data.filter parseable).map markerOf ≠ [] := by
      intro h
      rw [List.map_eq_nil_iff] at h
      rw [h] at hN
      exact absurd hN (by decide)
    rw [h1, List.getLast?_append_of_ne_nil _ hne, List.getLast?_map]

/-- C4, the stated form fails.  A record with latitude `-Infinity` has no
finite coordinates, and it gets a marker: one marker for no valid record.
And of three records that pass the guard, two of them with finite
coordinates, only the first gets a marker, because its longitude `Infinity`
makes Leaflet throw: one marker, and not that of the last valid record. -/
theorem count_differs :
    ([(⟨[("lat", "-Infinity"), ("lng", "10"), ("Timestamp", "a")]⟩ : Record)].filterMap
        finiteCoords).length = 0 ∧
    (processCSVData noPan
        [⟨[("lat", "-Infinity"), ("lng", "10"), ("Timestamp", "a")]⟩] map).map.markers.length
      = 1 ∧
    ([(⟨[("lat", "10"), ("lng", "Infinity"), ("Timestamp", "a")]⟩ : Record),
      ⟨[("lat", "11"), ("lng", "12"), ("Timestamp", "b")]⟩,
      ⟨[("lat", "13"), ("lng", "14"), ("Timestamp", "c")]⟩].filter parseable).length = 3 ∧
    ([(⟨[("lat", "10"), ("lng", "Infinity"), ("Timestamp", "a")]⟩ : Record),
      ⟨[("lat", "11"), ("lng", "12"), ("Timestamp", "b")]⟩,
      ⟨[("lat", "13"), ("lng", "14"), ("Timestamp", "c")]⟩].filterMap
        finiteCoords).length = 2 ∧
    (processCSVData noPan
        [⟨[("lat", "10"), ("lng", "Infinity"), ("Timestamp", "a")]⟩,
         ⟨[("lat", "11"), ("lng", "12"), ("Timestamp", "b")]⟩,
         ⟨[("lat", "13"), ("lng", "14"), ("Timestamp", "c")]⟩] map).map.markers =
      [{ latlng := ⟨.fin false 1 1, .posInf⟩, popup := some "<b>Timestamp:</b> a" }] := by
  decide

/-- C4 at the scenario of the spec, and at rows with signs: two markers at
(19.0760, 72.8777) and (28.6139, 77.2090), the second one's popup open and
the first one's closed; then two markers at (-33.8688, 151.2093) and
(-1.5, -0.5), the popup of the second open. -/
theorem count_and_last_popup_witness :
    ((processCSVData noPan
        [⟨[("lat", "19.0760"), ("lng", "72.8777"), ("Timestamp", "2024-01-01T00:00:00")]⟩,
         ⟨[("lat", ""), ("lng", ""), ("Timestamp", "")]⟩,
         ⟨[("lat", "28.6139"), ("lng", "77.2090"), ("Timestamp", "2024-01-02T00:00:00")]⟩]
        map).map.markers =
      [{ latlng := ⟨.fin false 19076 (-3), .fin false 728777 (-4)⟩
         popup := some "<b>Timestamp:</b> 2024-01-01T00:00:00" },
       { latlng := ⟨.fin false 286139 (-4), .fin false 77209 (-3)⟩
         popup := some "<b>Timestamp:</b> 2024-01-02T00:00:00" }] ∧
     popupOpen (processCSVData noPan
        [⟨[("lat", "19.0760"), ("lng", "72.8777"), ("Timestamp", "2024-01-01T00:00:00")]⟩,
         ⟨[("lat", ""), ("lng", ""), ("Timestamp", "")]⟩,
         ⟨[("lat", "28.6139"), ("lng", "77.2090"), ("Timestamp", "2024-01-02T00:00:00")]⟩]
        map).map 1 = true ∧
     popupOpen (processCSVData noPan
        [⟨[("lat", "19.0760"), ("lng", "72.8777"), ("Timestamp", "2024-01-01T00:00:00")]⟩,
         ⟨[("lat", ""), ("lng", ""), ("Timestamp", "")]⟩,
         ⟨[("lat", "28.6139"), ("lng", "77.2090"), ("Timestamp", "2024-01-02T00:00:00")]⟩]
        map).map 0 = false) ∧
    (processCSVData noPan
        [⟨[("lat", "-33.8688"), ("lng", "+151.2093"), ("Timestamp", "a")]⟩,
         ⟨[("lat", "north"), ("lng", "1"), ("Timestamp", "b")]⟩,
         ⟨[("lat", "-1.5"), ("lng", "-.5"), ("Timestamp", "c")]⟩]
        map).map.markers =
      [{ latlng := ⟨.fin true 338688 (-4), .fin false 1512093 (-4)⟩
         popup := some "<b>Timestamp:</b> a" },
       { latlng := ⟨.fin true 15 (-1), .fin true 5 (-1)⟩
         popup := some "<b>Timestamp:</b> c" }] := by
  have hs := count_and_last_popup noPan
    [⟨[("lat", "19.0760"), ("lng", "72.8777"), ("Timestamp", "2024-01-01T00:00:00")]⟩,
     ⟨[("lat", ""), ("lng", ""), ("Timestamp", "")]⟩,
     ⟨[("lat", "28.6139"), ("lng", "77.2090"), ("Timestamp", "2024-01-02T00:00:00")]⟩]
    map (by decide)
  have hopen := (hs.2.2 (by decide)).1
  refine ⟨⟨hs.1, ?_, ?_⟩, ?_⟩
  · exact (hopen 1).2 (by rw [hs.2.1]; decide)
  · cases hb : popupOpen (processCSVData noPan
        [⟨[("lat", "19.0760"), ("lng", "72.8777"), ("Timestamp", "2024-01-01T00:00:00")]⟩,
         ⟨[("lat", ""), ("lng", ""), ("Timestamp", "")]⟩,
         ⟨[("lat", "28.6139"), ("lng", "77.2090"), ("Timestamp", "2024-01-02T00:00:00")]⟩]
        map).map 0 with
    | false => rfl
    | true =>
      have h0 := (hopen 0).1 hb
      rw [hs.2.1] at h0
      exact absurd h0 (by decide)
  · exact (count_and_last_popup noPan
      [⟨[("lat", "-33.8688"), ("lng", "+151.2093"), ("Timestamp", "a")]⟩,
       ⟨[("lat", "north"), ("lng", "1"), ("Timestamp", "b")]⟩,
       ⟨[("lat", "-1.5"), ("lng", "-.5"), ("Timestamp", "c")]⟩] map (by decide)).1

/-- C5: the popup of the marker that a record produces is `<b>Timestamp:</b> `
followed by the text of the record's `Timestamp` field as it stands; a
record without that field gets the text `undefined` after the same
beginning.  The marker is the one the record adds when processed alone on
any map, and when processed after any rows that returned normally. -/
theorem label_is_timestamp_verbatim (lf : Leaflet) (row : Record)
    (h : parseable row = true) :
    ∃ mk,
      (∀ m, (processCSVData lf [row] m).map.markers = m.markers ++ [mk]) ∧
      (∀ pre m, (processCSVData lf pre m).completion = .normal →
        (processCSVData lf (pre ++ [row]) m).map.markers =
          (processCSVData lf pre m).map.markers ++ [mk]) ∧
      (∀ ts, row.get "Timestamp" = some ts →
        mk.popup = some ("<b>Timestamp:</b> " ++ ts)) ∧
      (row.get "Timestamp" = none → mk.popup = some "<b>Timestamp:</b> undefined") := by
  refine ⟨markerOf row, ?_, ?_, ?_, ?_⟩
  · intro m
    rw [processCSVData_single, step_markers]
    simp [h]
  · intro pre m hpre
    rw [processCSVData_snoc]
    simp only [hpre, if_true]
    rw [step_markers]
    simp [h]
  · intro ts hts
    simp [markerOf, hts, ToString]
  · intro hts
    simp only [markerOf, hts, ToString]
    rfl

/-- C5 at a record whose timestamp has blanks at both ends and markup inside:
the label keeps every character. -/
theorem label_is_timestamp_verbatim_witness :
    parseable ⟨[("lat", "1"), ("lng", "-2"), ("Timestamp", "  <i>01/02/2024</i> ")]⟩ = true ∧
    ∃ mk,
      (processCSVData noPan
        [⟨[("lat", "1"), ("lng", "-2"), ("Timestamp", "  <i>01/02/2024</i> ")]⟩]
        map).map.markers = [mk] ∧
      mk.popup = some "<b>Timestamp:</b>   <i>01/02/2024</i> " := by
  refine ⟨by decide, ?_⟩
  obtain ⟨mk, h1, -, h3, -⟩ := label_is_timestamp_verbatim noPan
    ⟨[("lat", "1"), ("lng", "-2"), ("Timestamp", "  <i>01/02/2024</i> ")]⟩ (by decide)
  exact ⟨mk, h1 map, h3 "  <i>01/02/2024</i> " rfl⟩

/-- C6: on the empty list `processCSVData` returns normally with the map it
was given; run on the initial map, no marker exists and the view is still
centre (20.5937, 78.9629), zoom 6. -/
theorem empty_data_unchanged (lf : Leaflet) :
    (∀ m : MapState, processCSVData lf [] m = { map := m, completion := .normal }) ∧
      processCSVData lf [] map = { map := map, completion := .normal } ∧
      map.markers = [] ∧
      map.center = ⟨.fin false 205937 (-4), .fin false 789629 (-4)⟩ ∧
      map.zoom = 6 := by
  exact ⟨fun m => rfl, rfl, rfl, rfl, rfl⟩

/-- C7: when `event.target.files[0]` is `undefined`, `handleFileSelect` returns
normally, having made no `Papa.parse` call and with the map as it was,
whatever the library would have delivered. -/
theorem no_file_is_noop (lf : Leaflet) (papa : File → ParseConfig → List Record)
    (event : Event) (m : MapState) (h : event.files[0]? = none) :
    handleFileSelect lf papa event m =
      { parseCall := none, map := m, completion := .normal } := by
  simp [handleFileSelect, h]

/-- C7 at the event with an empty file list, on the initial map. -/
theorem no_file_is_noop_witness :
    (Event.mk []).files[0]? = none ∧
    handleFileSelect noPan
        (fun _ _ => [⟨[("lat", "1"), ("lng", "2"), ("Timestamp", "a")]⟩])
        (Event.mk []) map = { parseCall := none, map := map, completion := .normal } :=
  ⟨rfl, no_file_is_noop noPan _ (Event.mk []) map rfl⟩

/-- C8: two lists of records of the same length whose records agree, place by
place, on `lat`, `lng` and `Timestamp` give the same result from the same
map: the same markers in the same order, the same open popup, the same
view, the same way of ending. -/
theorem extra_columns_ignored (lf : Leaflet) (a b : List Record) (m : MapState)
    (hlen : a.length = b.length)
    (hagree : ∀ (i : Nat) (r s : Record), a[i]? = some r → b[i]? = some s → agree r s) :
    processCSVData lf a m = processCSVData lf b m := by
  induction a generalizing b m with
  | nil =>
    cases b with
    | nil => rfl
    | cons s t => simp at hlen
  | cons r ta ih =>
    cases b with
    | nil => simp at hlen
    | cons s tb =>
      have hrs : agree r s := hagree 0 r s (by simp) (by simp)
      rw [processCSVData_cons, processCSVData_cons, agree_step lf hrs,
        ih tb (step lf s m).map (by simpa using hlen)
          (fun i x y hx hy => hagree (i + 1) x y (by simpa using hx) (by simpa using hy))]

/-- C8 at two one-row lists that differ in an extra column and in the order of
the columns. -/
theorem extra_columns_ignored_witness :
    processCSVData noPan
        [⟨[("lat", "1"), ("lng", "-2"), ("Timestamp", "a"), ("speed", "40")]⟩] map =
      processCSVData noPan
        [⟨[("note", "x"), ("Timestamp", "a"), ("lng", "-2"), ("lat", "1")]⟩] map :=
  extra_columns_ignored noPan
    [⟨[("lat", "1"), ("lng", "-2"), ("Timestamp", "a"), ("speed", "40")]⟩]
    [⟨[("note", "x"), ("Timestamp", "a"), ("lng", "-2"), ("lat", "1")]⟩] map rfl
    (fun i r s hr hs => by
      cases i with
      | zero =>
        simp only [List.getElem?_cons_zero, Option.some.injEq] at hr hs
        subst hr hs
        exact ⟨rfl, rfl, rfl⟩
      | succ j => simp at hr)

/-- C10: `processCSVData` only appends to the marker list, every marker that
was on the map staying where it was with its position and label: the new
markers are those of the parseable records among the rows reached, all rows
when the call returns normally.  Processing `a ++ b` is processing `a` and
then `b`, a call on `a` that does not return normally ending the sequence
as it ends the loop. -/
theorem additive_on_markers (lf : Leaflet) (a b : List Record) (m : MapState) :
    (processCSVData lf a m).map.markers.take m.markers.length = m.markers ∧
    ((processCSVData lf a m).completion = .normal →
      (processCSVData lf a m).map.markers =
        m.markers ++ (a.filter parseable).map markerOf) ∧
    (∃ n, n ≤ a.length ∧
      (processCSVData lf a m).map.markers =
        m.markers ++ ((a.take n).filter parseable).map markerOf) ∧
    processCSVData lf (a ++ b) m =
      (if (processCSVData lf a m).completion = .normal then
        processCSVData lf b (processCSVData lf a m).map
      else processCSVData lf a m) := by
  obtain ⟨n, hn, h1, -⟩ := markers_reached lf a m
  refine ⟨?_, fun h => (markers_of_normal lf a m h).1, ⟨n, hn, h1⟩,
    processCSVData_append lf a b m⟩
  rw [h1]
  simp

end Scripts
